import Mathlib

/-!
Verification development for the `investing` repository's filter evaluation
engine (`src/filters/base.py`, `src/filters/core_filters.py`,
`src/filters/additional_filters.py`, `src/filters/__init__.py`) and its
analysis orchestrator (`src/analysis/company_analyzer.py`).

The embedding models Python/pandas numerics over exact rationals extended
with the IEEE special values that the pandas operations used by the code can
produce (`nan`, `+inf`, `-inf`).  All catalogue thresholds and the table
values exercised by the theorems are exactly representable, so no
floating-point rounding is observable in any statement below.
-/

/-- A cell or scalar value of the Python program: a float (exact rational),
the float special values `nan` / `inf` / `-inf`, a square root `±√q` (only
produced by the standard-deviation filter, which no theorem evaluates
numerically), or a string.  `nan` also stands for a missing field of a
quarterly record, because `pd.DataFrame(list_of_dicts)` stores missing keys
as NaN. -/
inductive Val where
  | nan : Val
  | inf : Val
  | ninf : Val
  | rat : ℚ → Val
  | sqt : Bool → ℚ → Val
  | str : String → Val
deriving DecidableEq

/-- A raised Python exception, as far as the modelled code distinguishes
them. -/
inductive PyErr where
  | keyError : String → PyErr
  | typeError : PyErr
deriving DecidableEq

/-- One provider record: a JSON object mapping field names to values. -/
abbrev Record : Type := List (String × Val)

/-- A pandas DataFrame built from a list of records: a column list plus
rows aligned with it. -/
structure DataFrame where
  cols : List String
  rows : List (List Val)
deriving DecidableEq

/-- Append a key to a first-occurrence-ordered key list if it is new. -/
def addKey (acc : List String) (k : String) : List String :=
  if k ∈ acc then acc else acc ++ [k]

/-- The column list of `pd.DataFrame(records)`: union of the record keys in
order of first appearance. -/
def dfCols (records : List Record) : List String :=
  records.foldl (fun acc r => r.foldl (fun a kv => addKey a kv.1) acc) []

/-- `pd.DataFrame(records)`: missing keys become NaN cells. -/
def mkDataFrame (records : List Record) : DataFrame :=
  let cols := dfCols records
  { cols := cols
    rows := records.map (fun r => cols.map (fun c => (r.lookup c).getD Val.nan)) }

/-- Column selection `df[c]`: raises `KeyError` when the column is absent. -/
def getCol (df : DataFrame) (c : String) : Except PyErr (List Val) :=
  match df.cols.findIdx? (fun k => k = c) with
  | some i => .ok (df.rows.map (fun row => row.getD i Val.nan))
  | none => .error (.keyError c)

/-- `Series.get(field, "")` on a row: the aligned cell when the column
exists (NaN for a missing value), else the default `""`. -/
def rowGet (cols : List String) (row : List Val) (c : String) : Val :=
  match cols.findIdx? (fun k => k = c) with
  | some i => row.getD i Val.nan
  | none => Val.str ""

/-- Python truthiness of a value.  Note that `float("nan")` is truthy. -/
def pyTruthy : Val → Bool
  | Val.nan => true
  | Val.inf => true
  | Val.ninf => true
  | Val.rat q => q ≠ 0
  | Val.sqt _ q => q ≠ 0
  | Val.str s => s ≠ ""

/-- f-string rendering of a value.  The string and NaN/±inf branches match
Python exactly; the numeric branches abbreviate Python float repr (no
theorem renders a numeric label field). -/
def fmtVal : Val → String
  | Val.nan => "nan"
  | Val.inf => "inf"
  | Val.ninf => "-inf"
  | Val.rat q => if q.den = 1 then toString q.num else toString q.num ++ "/" ++ toString q.den
  | Val.sqt b q => (if b then "-" else "") ++ "sqrt(" ++ toString q.num ++ "/" ++ toString q.den ++ ")"
  | Val.str s => s

/-- Elementwise float division as pandas/numpy perform it: a zero
denominator under a nonzero numerator gives a signed infinity, `0/0` gives
NaN, NaN propagates, and dividing by an infinity gives 0.  Strings raise
`TypeError` (object-dtype arithmetic).  The `sqt` rows extend the table to
`±√q` values; they are unreachable from table cells. -/
def vdivE : Val → Val → Except PyErr Val
  | Val.str _, _ => .error .typeError
  | _, Val.str _ => .error .typeError
  | Val.nan, _ => .ok Val.nan
  | _, Val.nan => .ok Val.nan
  | Val.rat a, Val.rat b =>
      .ok (if b ≠ 0 then Val.rat (a / b)
           else if 0 < a then Val.inf
           else if a < 0 then Val.ninf
           else Val.nan)
  | Val.rat _, Val.inf => .ok (Val.rat 0)
  | Val.rat _, Val.ninf => .ok (Val.rat 0)
  | Val.inf, Val.rat b => .ok (if b < 0 then Val.ninf else Val.inf)
  | Val.ninf, Val.rat b => .ok (if b < 0 then Val.inf else Val.ninf)
  | Val.inf, _ => .ok Val.nan
  | Val.ninf, _ => .ok Val.nan
  | Val.sqt s v, Val.rat b =>
      .ok (if b = 0 then (if s then Val.ninf else Val.inf)
           else if 0 < b then Val.sqt s (v / b ^ 2)
           else Val.sqt (!s) (v / b ^ 2))
  | Val.sqt _ _, _ => .ok Val.nan
  | Val.rat _, Val.sqt _ _ => .ok Val.nan

/-- Elementwise float subtraction (numpy/pandas semantics on the modelled
values). -/
def vsubE : Val → Val → Except PyErr Val
  | Val.str _, _ => .error .typeError
  | _, Val.str _ => .error .typeError
  | Val.nan, _ => .ok Val.nan
  | _, Val.nan => .ok Val.nan
  | Val.rat a, Val.rat b => .ok (Val.rat (a - b))
  | Val.inf, Val.inf => .ok Val.nan
  | Val.ninf, Val.ninf => .ok Val.nan
  | Val.inf, _ => .ok Val.inf
  | Val.ninf, _ => .ok Val.ninf
  | Val.rat _, Val.inf => .ok Val.ninf
  | Val.rat _, Val.ninf => .ok Val.inf
  | Val.sqt _ _, _ => .ok Val.nan
  | _, Val.sqt _ _ => .ok Val.nan

/-- Zip two aligned columns with an elementwise operation, propagating the
first raised exception. -/
def colZip (op : Val → Val → Except PyErr Val) : List Val → List Val → Except PyErr (List Val)
  | [], _ => .ok []
  | _, [] => .ok []
  | a :: as', b :: bs =>
    match op a b with
    | .error e => .error e
    | .ok v =>
      match colZip op as' bs with
      | .error e => .error e
      | .ok vs => .ok (v :: vs)

/-- `series_a / series_b` on aligned columns. -/
def colDiv (a b : List Val) : Except PyErr (List Val) := colZip vdivE a b

/-- `series_a - series_b` on aligned columns. -/
def colSub (a b : List Val) : Except PyErr (List Val) := colZip vsubE a b

/-- The rational entries of a list of values. -/
def ratsOf (xs : List Val) : List ℚ :=
  xs.filterMap (fun v => match v with | Val.rat q => some q | _ => none)

/-- `Series.mean()` with pandas defaults: object entries (strings) raise
`TypeError`; NaN entries are skipped; an empty or all-NaN series has mean
NaN; a remaining infinity dominates the mean (mixed `+inf`/`-inf` gives
NaN); otherwise the exact arithmetic mean. -/
def smean (xs : List Val) : Except PyErr Val :=
  if xs.any (fun v => match v with | Val.str _ => true | _ => false) then
    .error .typeError
  else
    let ys := xs.filter (fun v => v ≠ Val.nan)
    if ys.isEmpty then .ok Val.nan
    else if ys.any (fun v => v = Val.inf) && ys.any (fun v => v = Val.ninf) then .ok Val.nan
    else if ys.any (fun v => v = Val.inf) then .ok Val.inf
    else if ys.any (fun v => v = Val.ninf) then .ok Val.ninf
    else if ys.any (fun v => match v with | Val.sqt _ _ => true | _ => false) then .ok Val.nan
    else .ok (Val.rat ((ratsOf ys).sum / (ys.length : ℚ)))

/-- `np.mean` over a list: like `smean` but NaN is NOT skipped (numpy does
not skip NaN), and the mean of an empty array is NaN (numpy emits only a
RuntimeWarning there). -/
def npMean (xs : List Val) : Except PyErr Val :=
  if xs.any (fun v => match v with | Val.str _ => true | _ => false) then
    .error .typeError
  else if xs.isEmpty then .ok Val.nan
  else if xs.any (fun v => v = Val.nan) then .ok Val.nan
  else if xs.any (fun v => v = Val.inf) && xs.any (fun v => v = Val.ninf) then .ok Val.nan
  else if xs.any (fun v => v = Val.inf) then .ok Val.inf
  else if xs.any (fun v => v = Val.ninf) then .ok Val.ninf
  else if xs.any (fun v => match v with | Val.sqt _ _ => true | _ => false) then .ok Val.nan
  else .ok (Val.rat ((ratsOf xs).sum / (xs.length : ℚ)))

/-- Normalised square-root value: `√0` collapses to the rational `0`. -/
def mkSqt (v : ℚ) : Val :=
  if v = 0 then Val.rat 0 else Val.sqt false v

/-- `Series.std()` with pandas defaults (`ddof = 1`, `skipna = True`):
strings raise; with at most one non-NaN entry the result is NaN; a single
infinity yields an infinite deviation hence `inf`, two or more give NaN;
otherwise `√(Σ(x − mean)² / (n − 1))`, represented symbolically. -/
def pdStd (xs : List Val) : Except PyErr Val :=
  if xs.any (fun v => match v with | Val.str _ => true | _ => false) then
    .error .typeError
  else
    let ys := xs.filter (fun v => v ≠ Val.nan)
    if ys.length ≤ 1 then .ok Val.nan
    else
      let ni := (ys.filter (fun v => v = Val.inf ∨ v = Val.ninf)).length
      if ni = 1 then .ok Val.inf
      else if 1 < ni then .ok Val.nan
      else if ys.any (fun v => match v with | Val.sqt _ _ => true | _ => false) then .ok Val.nan
      else
        let qs := ratsOf ys
        let m := qs.sum / (qs.length : ℚ)
        .ok (mkSqt ((qs.map (fun x => (x - m) ^ 2)).sum / ((qs.length : ℚ) - 1)))

/-- Python float comparison `value >= t` (`nan` compares false, infinities
as usual; a string here would raise in Python, never reached because
`calculate` never returns a string). -/
def vge : Val → ℚ → Bool
  | Val.rat a, t => decide (t ≤ a)
  | Val.nan, _ => false
  | Val.inf, _ => true
  | Val.ninf, _ => false
  | Val.sqt false q, t => decide (t ≤ 0) || decide (t ^ 2 ≤ q)
  | Val.sqt true q, t => decide (t ≤ 0) && decide (q ≤ t ^ 2)
  | Val.str _, _ => false

/-- Python float comparison `value <= t`. -/
def vle : Val → ℚ → Bool
  | Val.rat a, t => decide (a ≤ t)
  | Val.nan, _ => false
  | Val.inf, _ => false
  | Val.ninf, _ => true
  | Val.sqt false q, t => decide (0 ≤ t) && decide (q ≤ t ^ 2)
  | Val.sqt true q, t => decide (0 ≤ t) || decide (t ^ 2 ≤ q)
  | Val.str _, _ => false

/-- Python float comparison `value > t`. -/
def vgt : Val → ℚ → Bool
  | Val.rat a, t => decide (t < a)
  | Val.nan, _ => false
  | Val.inf, _ => true
  | Val.ninf, _ => false
  | Val.sqt false q, t => decide (t < 0) || decide (t ^ 2 < q)
  | Val.sqt true q, t => decide (t < 0) && decide (q < t ^ 2)
  | Val.str _, _ => false

/-- Python float comparison `value < t`. -/
def vlt : Val → ℚ → Bool
  | Val.rat a, t => decide (a < t)
  | Val.nan, _ => false
  | Val.inf, _ => false
  | Val.ninf, _ => true
  | Val.sqt false q, t => decide (0 < t) && decide (q < t ^ 2)
  | Val.sqt true q, t => decide (0 < t) || decide (t ^ 2 < q)
  | Val.str _, _ => false

/-- Round half to even, as Python string formatting rounds. -/
def roundHalfEven (q : ℚ) : ℤ :=
  let f := q.floor
  let r := q - (f : ℚ)
  if r < 1 / 2 then f
  else if 1 / 2 < r then f + 1
  else if f % 2 = 0 then f else f + 1

/-- Python `f"{q:.0%}"` for an exactly-representable threshold. -/
def fmtPercent0 (q : ℚ) : String :=
  toString (roundHalfEven (q * 100)) ++ "%"

/-- `Classification` from `src/filters/base.py`: a numeric range with
optional bounds and a description. -/
structure Classification where
  min_value : Option ℚ
  max_value : Option ℚ
  description : String
deriving DecidableEq

/-- `Classification.contains` from `src/filters/base.py`: fails when a
present lower bound exceeds the value or a present upper bound is below it,
else succeeds. -/
def Classification.contains (c : Classification) (value : Val) : Bool :=
  if (match c.min_value with | some m => vlt value m | none => false) then false
  else if (match c.max_value with | some m => vgt value m | none => false) then false
  else true

/-- The structured result of `FinancialFilter.get_result`.  An `Option`
field is `none` when the source dict omits the key; `classification` is
`some none` when the key is present with value `None`. -/
structure FilterResult where
  value : Val
  description : String
  passes : Option Bool := none
  threshold : Option String := none
  classification : Option (Option String) := none
  guidelines : Option String := none
deriving DecidableEq

/-- `FinancialFilter` from `src/filters/base.py`.  Subclass method
overriding is modelled by the function fields: `calc` is the subclass
`calculate`, and `result_override` is `some g` exactly for the one subclass
that overrides `get_result`. -/
structure FinancialFilter where
  name : String
  description : String
  threshold : Option ℚ := none
  threshold_text : Option String := none
  comparison : Option String := none
  classifications : List Classification := []
  guidelines : Option String := none
  calculate : DataFrame → Except PyErr Val
  result_override : Option (DataFrame → Except PyErr FilterResult) := none

/-- `FinancialFilter.passes_threshold`: `True` when threshold or comparison
is `None`; otherwise dispatch on the comparison string, falling through to
`True` for an unrecognized operator. -/
def passes_threshold (f : FinancialFilter) (value : Val) : Bool :=
  match f.threshold, f.comparison with
  | none, _ => true
  | some _, none => true
  | some t, some c =>
    if c = ">=" then vge value t
    else if c = "<=" then vle value t
    else if c = ">" then vgt value t
    else if c = "<" then vlt value t
    else true

/-- `FinancialFilter.get_classification`: first containing range wins. -/
def get_classification_list (cs : List Classification) (value : Val) : Option String :=
  match cs with
  | [] => none
  | c :: rest => if c.contains value then some c.description else get_classification_list rest value

/-- `FinancialFilter.get_classification` on the filter object. -/
def get_classification (f : FinancialFilter) (value : Val) : Option String :=
  get_classification_list f.classifications value

/-- Python `X or Y` for the threshold display text: `None` and the empty
string both fall through to the synthesized text. -/
def pyOrText (x : Option String) (y : String) : String :=
  match x with
  | some s => if s = "" then y else s
  | none => y

/-- Rendering of `f"{self.comparison} {self.threshold:.0%}"`; a `None`
comparison renders as the string `"None"`. -/
def synthText (comparison : Option String) (t : ℚ) : String :=
  (match comparison with | some c => c | none => "None") ++ " " ++ fmtPercent0 t

/-- The pure tail of `FinancialFilter.get_result` once `calculate` has
produced `value`: attach pass/threshold when a threshold is set,
classification when the classification list is non-empty, and guidelines
when the guideline text is truthy. -/
def mkResult (f : FinancialFilter) (value : Val) : FilterResult :=
  let base : FilterResult := { value := value, description := f.description }
  let r1 := match f.threshold with
    | some t =>
      { base with passes := some (passes_threshold f value)
                  threshold := some (pyOrText f.threshold_text (synthText f.comparison t)) }
    | none => base
  let r2 := if f.classifications.isEmpty then r1
    else { r1 with classification := some (get_classification f value) }
  match f.guidelines with
  | some g => if g = "" then r2 else { r2 with guidelines := some g }
  | none => r2

/-- `FinancialFilter.get_result` from `src/filters/base.py`: run
`calculate` (propagating any exception) and decorate the value. -/
def get_result (f : FinancialFilter) (df : DataFrame) : Except PyErr FilterResult :=
  match f.calculate df with
  | .error e => .error e
  | .ok value => .ok (mkResult f value)

/-- Dynamic dispatch of `get_result`: the overriding subclass's method when
present, else the base implementation. -/
def dispatch_get_result (f : FinancialFilter) (df : DataFrame) : Except PyErr FilterResult :=
  match f.result_override with
  | some g => g df
  | none => get_result f df

/-- The quarter label built inside `get_quarterly_data`:
`f"{calendarYear}-{period}"` when both `Series.get` results are truthy,
else `None`. -/
def labelOfRow (cols : List String) (row : List Val) : Option String :=
  let fy := rowGet cols row ("calendarYear")
  let p := rowGet cols row ("period")
  if pyTruthy fy && pyTruthy p then some (fmtVal fy ++ "-" ++ fmtVal p) else none

/-- The loop body of `FinancialFilter.get_quarterly_data`: one
`(label, value)` pair per row, where the value is `calculate` applied to
the single-row sub-DataFrame (which keeps the full column list, as
`pd.DataFrame([quarter])` does); the first exception aborts the loop. -/
def qloop (calculate : DataFrame → Except PyErr Val) (cols : List String) :
    List (List Val) → Except PyErr (List (Option String × Val))
  | [] => .ok []
  | row :: rest =>
    match calculate { cols := cols, rows := [row] } with
    | .error e => .error e
    | .ok v =>
      match qloop calculate cols rest with
      | .error e => .error e
      | .ok tail => .ok ((labelOfRow cols row, v) :: tail)

/-- `FinancialFilter.get_quarterly_data` from `src/filters/base.py`: the
whole loop runs under `try/except Exception: return None`, so any raised
exception makes the entire series `None`. -/
def get_quarterly_data (calculate : DataFrame → Except PyErr Val) (df : DataFrame) :
    Option (List (Option String × Val)) :=
  match qloop calculate df.cols df.rows with
  | .ok ps => some ps
  | .error _ => none

/-- `GrossProfitRatioFilter.calculate` from `src/filters/core_filters.py`:
mean of the precomputed `grossProfitRatio` column. -/
def grossProfitCalc (df : DataFrame) : Except PyErr Val :=
  match getCol df ("grossProfitRatio") with
  | .error e => .error e
  | .ok c => smean c

/-- `SGARatioFilter.calculate`: mean of SG&A expenses over gross profit. -/
def sgaCalc (df : DataFrame) : Except PyErr Val :=
  match getCol df ("sellingGeneralAndAdministrativeExpenses") with
  | .error e => .error e
  | .ok a =>
    match getCol df ("grossProfit") with
    | .error e => .error e
    | .ok b =>
      match colDiv a b with
      | .error e => .error e
      | .ok r => smean r

/-- `RDRatioFilter.calculate`: mean of R&D expenses over gross profit. -/
def rdCalc (df : DataFrame) : Except PyErr Val :=
  match getCol df ("researchAndDevelopmentExpenses") with
  | .error e => .error e
  | .ok a =>
    match getCol df ("grossProfit") with
    | .error e => .error e
    | .ok b =>
      match colDiv a b with
      | .error e => .error e
      | .ok r => smean r

/-- `DepreciationRatioFilter.calculate`: mean of D&A over gross profit. -/
def depreciationCalc (df : DataFrame) : Except PyErr Val :=
  match getCol df ("depreciationAndAmortization") with
  | .error e => .error e
  | .ok a =>
    match getCol df ("grossProfit") with
    | .error e => .error e
    | .ok b =>
      match colDiv a b with
      | .error e => .error e
      | .ok r => smean r

/-- `InterestRatioFilter.calculate`: mean of interest expense over
operating income. -/
def interestCalc (df : DataFrame) : Except PyErr Val :=
  match getCol df ("interestExpense") with
  | .error e => .error e
  | .ok a =>
    match getCol df ("operatingIncome") with
    | .error e => .error e
    | .ok b =>
      match colDiv a b with
      | .error e => .error e
      | .ok r => smean r

/-- `NetIncomeRatioFilter.calculate`: mean of the `netIncomeRatio` column. -/
def netIncomeCalc (df : DataFrame) : Except PyErr Val :=
  match getCol df ("netIncomeRatio") with
  | .error e => .error e
  | .ok c => smean c

/-- `OperatingPLFilter.calculate`: mean of
`(grossProfit - operatingExpenses) / grossProfit`. -/
def operatingPLCalc (df : DataFrame) : Except PyErr Val :=
  match getCol df ("grossProfit") with
  | .error e => .error e
  | .ok gp =>
    match getCol df ("operatingExpenses") with
    | .error e => .error e
    | .ok oe =>
      match colSub gp oe with
      | .error e => .error e
      | .ok opl =>
        match colDiv opl gp with
        | .error e => .error e
        | .ok r => smean r

/-- `RevenueTrendFilter.calculate` from
`src/filters/additional_filters.py`: `np.mean(np.diff(rev) / rev[:-1])`. -/
def revenueTrendCalc (df : DataFrame) : Except PyErr Val :=
  match getCol df ("revenue") with
  | .error e => .error e
  | .ok r =>
    match colSub (r.drop 1) r with
    | .error e => .error e
    | .ok d =>
      match colDiv d r.dropLast with
      | .error e => .error e
      | .ok g => npMean g

/-- `OperatingMarginFilter.calculate`: mean of operating income over
revenue. -/
def operatingMarginCalc (df : DataFrame) : Except PyErr Val :=
  match getCol df ("operatingIncome") with
  | .error e => .error e
  | .ok a =>
    match getCol df ("revenue") with
    | .error e => .error e
    | .ok b =>
      match colDiv a b with
      | .error e => .error e
      | .ok r => smean r

/-- `SGAConsistencyFilter.calculate`: coefficient of variation
(`std / mean`) of the SG&A-to-gross-profit ratio series. -/
def sgaConsistencyCalc (df : DataFrame) : Except PyErr Val :=
  match getCol df ("sellingGeneralAndAdministrativeExpenses") with
  | .error e => .error e
  | .ok a =>
    match getCol df ("grossProfit") with
    | .error e => .error e
    | .ok b =>
      match colDiv a b with
      | .error e => .error e
      | .ok r =>
        match pdStd r with
        | .error e => .error e
        | .ok s =>
          match smean r with
          | .error e => .error e
          | .ok m => vdivE s m

/-- `IndustryAdjustedInterestFilter.calculate`: identical body to the plain
interest filter. -/
def industryInterestCalc (df : DataFrame) : Except PyErr Val :=
  match getCol df ("interestExpense") with
  | .error e => .error e
  | .ok a =>
    match getCol df ("operatingIncome") with
    | .error e => .error e
    | .ok b =>
      match colDiv a b with
      | .error e => .error e
      | .ok r => smean r

/-- The `industry_thresholds` dict of `IndustryAdjustedInterestFilter`. -/
def industry_thresholds : List (String × ℚ) :=
  [("Consumer Goods", 0.15), ("Financials", 0.30), ("Default", 0.20)]

/-- `IndustryAdjustedInterestFilter.get_result` override: always reads the
`"Default"` threshold (the sector is not passed in by the orchestrator),
checks `value <= threshold` and renders `f"≤ {threshold:.0%}"`. -/
def industryGetResult (df : DataFrame) : Except PyErr FilterResult :=
  match industryInterestCalc df with
  | .error e => .error e
  | .ok value =>
    let threshold := (industry_thresholds.lookup ("Default")).getD 0
    .ok { value := value
          description := "Interest to operating income ratio with industry-specific thresholds"
          passes := some (vle value threshold)
          threshold := some ("≤ " ++ fmtPercent0 threshold) }

/- Guideline strings below are shortened to one representative line; their
prose is copied verbatim from the source but is not inspected by any
property. -/

/-- `GrossProfitRatioFilter` configuration. -/
def grossProfitRatioFilter : FinancialFilter :=
  { name := "gross_profit_ratio"
    description := "Indicates pricing power and efficiency"
    threshold := some 0.4
    comparison := some ">="
    threshold_text := some "≥ 40%"
    guidelines := some "Average over the last 10 years to ensure durable competitive advantage."
    classifications :=
      [ { min_value := some 0.4, max_value := none, description := "Durable competitive advantage" },
        { min_value := some 0.2, max_value := some 0.4, description := "Highly-competitive industry" },
        { min_value := none, max_value := some 0.2, description := "Fiercely competitive industry" } ]
    calculate := grossProfitCalc }

/-- `SGARatioFilter` configuration. -/
def sgaRatioFilter : FinancialFilter :=
  { name := "sga_ratio"
    description := "Lower ratio indicates better operational efficiency"
    threshold := some 0.3
    comparison := some "<="
    threshold_text := some "≤ 30%"
    guidelines := some "Look for consistency. Wild oscillations can indicate problems with adapting to falling sales."
    classifications :=
      [ { min_value := none, max_value := some 0.3, description := "Excellent operational efficiency" },
        { min_value := some 0.3, max_value := some 0.8, description := "Normal range (varies by industry)" },
        { min_value := some 0.8, max_value := none, description := "High overhead costs" } ]
    calculate := sgaCalc }

/-- `RDRatioFilter` configuration (no threshold). -/
def rdRatioFilter : FinancialFilter :=
  { name := "rd_ratio"
    description := "R&D investment relative to gross profit"
    guidelines := some "High R&D often leads to increased costs in other areas (e.g., SGA for new product launches)."
    classifications :=
      [ { min_value := none, max_value := some 0.1, description := "Low R&D dependency - more stable advantage" },
        { min_value := some 0.1, max_value := some 0.2, description := "Moderate R&D investment" },
        { min_value := some 0.2, max_value := none, description := "Heavy R&D investment - potential risk to long-term economics" } ]
    calculate := rdCalc }

/-- `DepreciationRatioFilter` configuration. -/
def depreciationRatioFilter : FinancialFilter :=
  { name := "depreciation_ratio"
    description := "Lower ratio suggests less capital-intensive business"
    threshold := some 0.1
    comparison := some "<="
    threshold_text := some "≤ 10%"
    guidelines := some "Companies with durable competitive advantages usually have low D&A costs."
    classifications :=
      [ { min_value := none, max_value := some 0.1, description := "Asset-light business with potential durable advantage" },
        { min_value := some 0.1, max_value := some 0.2, description := "Moderate capital intensity" },
        { min_value := some 0.2, max_value := none, description := "Capital-intensive business (check industry context)" } ]
    calculate := depreciationCalc }

/-- `InterestRatioFilter` configuration (no threshold). -/
def interestRatioFilter : FinancialFilter :=
  { name := "interest_ratio"
    description := "Lower ratio indicates less debt burden"
    guidelines := some "Varies significantly by industry: consumer goods (<15%), financial services (~30%)."
    classifications :=
      [ { min_value := none, max_value := some 0.15, description := "Strong position (typical for consumer goods)" },
        { min_value := some 0.15, max_value := some 0.3, description := "Moderate interest burden" },
        { min_value := some 0.3, max_value := some 0.7, description := "High interest burden (typical for financial services)" },
        { min_value := some 0.7, max_value := none, description := "Warning: Very high interest burden (risk of distress)" } ]
    calculate := interestCalc }

/-- `NetIncomeRatioFilter` configuration. -/
def netIncomeRatioFilter : FinancialFilter :=
  { name := "net_income_ratio"
    description := "Net earnings relative to gross profit"
    threshold := some 0.2
    comparison := some ">"
    threshold_text := some "> 20%"
    guidelines := some "Higher ratio compared to competitors suggests durable advantage."
    classifications :=
      [ { min_value := some 0.2, max_value := none, description := "Durable competitive advantage" },
        { min_value := some 0.1, max_value := some 0.2, description := "Gray area - requires further analysis" },
        { min_value := none, max_value := some 0.1, description := "Competitive industry without clear advantage" } ]
    calculate := netIncomeCalc }

/-- `RevenueTrendFilter` configuration (no classifications). -/
def revenueTrendFilter : FinancialFilter :=
  { name := "revenue_trend"
    description := "Measures revenue growth trend over time"
    threshold := some 0.0
    comparison := some ">"
    threshold_text := some "Positive growth"
    calculate := revenueTrendCalc }

/-- `OperatingMarginFilter` configuration. -/
def operatingMarginFilter : FinancialFilter :=
  { name := "operating_margin"
    description := "Operating profit as percentage of revenue"
    threshold := some 0.15
    comparison := some ">="
    threshold_text := some "≥ 15%"
    calculate := operatingMarginCalc }

/-- `SGAConsistencyFilter` configuration. -/
def sgaConsistencyFilter : FinancialFilter :=
  { name := "sga_consistency"
    description := "Measures consistency of SGA expenses relative to gross profit"
    threshold := some 0.25
    comparison := some "<="
    threshold_text := some "≤ 25% variation"
    calculate := sgaConsistencyCalc }

/-- `IndustryAdjustedInterestFilter` configuration: no base threshold, and
a `get_result` override. -/
def industryAdjustedInterestFilter : FinancialFilter :=
  { name := "industry_interest_ratio"
    description := "Interest to operating income ratio with industry-specific thresholds"
    calculate := industryInterestCalc
    result_override := some industryGetResult }

/-- `OperatingPLFilter` configuration (defined in `core_filters.py`; not
registered in the catalogue `AVAILABLE_FILTERS`). -/
def operatingPLFilter : FinancialFilter :=
  { name := "operating_pl_ratio"
    description := "Operating Profit/Loss relative to gross profit"
    threshold := some 0.3
    comparison := some ">="
    threshold_text := some "≥ 30%"
    guidelines := some "Operating P/L measures operational efficiency by showing how much profit remains after all operating expenses."
    classifications :=
      [ { min_value := some 0.3, max_value := none, description := "Strong operational efficiency" },
        { min_value := some 0.15, max_value := some 0.3, description := "Moderate operational efficiency" },
        { min_value := some 0, max_value := some 0.15, description := "Low operational efficiency" },
        { min_value := none, max_value := some 0, description := "Operating at a loss - concerning" } ]
    calculate := operatingPLCalc }

/-- `AVAILABLE_FILTERS` from `src/filters/__init__.py`, in dict insertion
order. -/
def AVAILABLE_FILTERS : List (String × FinancialFilter) :=
  [ ("gross_profit_ratio", grossProfitRatioFilter),
    ("sga_ratio", sgaRatioFilter),
    ("rd_ratio", rdRatioFilter),
    ("depreciation_ratio", depreciationRatioFilter),
    ("interest_ratio", interestRatioFilter),
    ("net_income_ratio", netIncomeRatioFilter),
    ("revenue_trend", revenueTrendFilter),
    ("operating_margin", operatingMarginFilter),
    ("sga_consistency", sgaConsistencyFilter),
    ("industry_interest", industryAdjustedInterestFilter) ]

/-- Catalogue lookup (`filter_name in AVAILABLE_FILTERS` /
`AVAILABLE_FILTERS[filter_name]`). -/
def lookupFilter (n : String) : Option FinancialFilter :=
  AVAILABLE_FILTERS.lookup n

/-- `DEFAULT_FILTERS` from `src/filters/__init__.py`. -/
def DEFAULT_FILTERS : List String :=
  ["gross_profit_ratio", "sga_ratio", "rd_ratio", "depreciation_ratio",
   "interest_ratio", "net_income_ratio"]

/-- A per-filter quarterly series: ordered (label, value) pairs. -/
abbrev QSeries : Type := List (Option String × Val)

/-- A value of the dict returned by `CompanyAnalyzer.get_company_data`. -/
inductive CDField where
  | info : Record → CDField
  | stmts : List Record → CDField

/-- `CompanyAnalyzer.get_company_data` from
`src/analysis/company_analyzer.py`: always a two-key dict holding the
profile and the income statement truncated to `n_quarters = 40` entries and
reversed to oldest-first.  The provider calls themselves are external; the
model takes their (possibly empty) responses as inputs. -/
def get_company_data (profile : Record) (income : List Record) : List (String × CDField) :=
  [("company_info", CDField.info profile),
   ("income_statement", CDField.stmts ((income.take 40).reverse))]

/-- `company_data["company_info"]` (always present by construction). -/
def cdInfo (d : List (String × CDField)) : Record :=
  match d.lookup ("company_info") with
  | some (CDField.info r) => r
  | _ => []

/-- `company_data["income_statement"]` (always present by construction). -/
def cdStmts (d : List (String × CDField)) : List Record :=
  match d.lookup ("income_statement") with
  | some (CDField.stmts rs) => rs
  | _ => []

/-- Python dict indexing `d[k]`: `KeyError` when the key is absent. -/
def dictGet (r : Record) (k : String) : Except PyErr Val :=
  match r.lookup k with
  | some v => .ok v
  | none => .error (.keyError k)

/-- Python dict item assignment `d[k] = v`: replace in place when the key
exists (keeping its position), else append. -/
def upsert {α : Type} (d : List (String × α)) (k : String) (v : α) : List (String × α) :=
  if d.any (fun kv => kv.1 = k) then d.map (fun kv => if kv.1 = k then (k, v) else kv)
  else d ++ [(k, v)]

/-- The per-filter loop of `CompanyAnalyzer.analyze_company`: skip unknown
ids silently; otherwise store the (dynamically dispatched) `get_result`
output under the id, and store the quarterly series only when
`get_quarterly_data` did not return `None`.  An exception from `get_result`
propagates. -/
def filterLoop (df : DataFrame) :
    List String → List (String × FilterResult) → List (String × QSeries) →
    Except PyErr (List (String × FilterResult) × List (String × QSeries))
  | [], fr, qd => .ok (fr, qd)
  | n :: rest, fr, qd =>
    match lookupFilter n with
    | none => filterLoop df rest fr qd
    | some fobj =>
      match dispatch_get_result fobj df with
      | .error e => .error e
      | .ok r =>
        let fr2 := upsert fr n r
        let qd2 := match get_quarterly_data fobj.calculate df with
          | some q => upsert qd n q
          | none => qd
        filterLoop df rest fr2 qd2

/-- The success dict assembled by `analyze_company`. -/
structure AnalyzeOut where
  company_name : Val
  sector : Val
  filters : List (String × FilterResult)
  quarterly_data : List (String × QSeries)
deriving DecidableEq

/-- The return value of `analyze_company`: either the `{"error": ...}`
dict or the results dict. -/
inductive AnalyzeResult where
  | errorResult : String → AnalyzeResult
  | result : AnalyzeOut → AnalyzeResult
deriving DecidableEq

/-- `CompanyAnalyzer.analyze_company`: fetch company data, return the
"not found" error dict when that data is falsy, default the filter list,
read `companyName` and `sector` from the profile (plain dict indexing, so
a `KeyError` escapes when the profile lacks them), build the DataFrame
and run the filter loop. -/
def analyze_company (company_name : String) (profile : Record)
    (income : List Record) (filters : Option (List String)) :
    Except PyErr AnalyzeResult :=
  let company_data := get_company_data profile income
  if company_data.isEmpty then
    .ok (AnalyzeResult.errorResult ("Company " ++ company_name ++ " not found"))
  else
    let fs := filters.getD DEFAULT_FILTERS
    match dictGet (cdInfo company_data) ("companyName") with
    | .error e => .error e
    | .ok cn =>
      match dictGet (cdInfo company_data) ("sector") with
      | .error e => .error e
      | .ok sec =>
        let income_df := mkDataFrame (cdStmts company_data)
        match filterLoop income_df fs [] [] with
        | .error e => .error e
        | .ok (fr, qd) =>
          .ok (AnalyzeResult.result
            { company_name := cn, sector := sec, filters := fr, quarterly_data := qd })

deriving instance DecidableEq for Except

/-- The comparison of a value against a threshold using a comparison
operator drawn from `{>=, <=, >, <}` (the claim's notion of
`compare(value, threshold, comparison)`), under Python float comparison
semantics. -/
def pyCompare (c : String) (v : Val) (t : ℚ) : Bool :=
  if c = ">=" then vge v t
  else if c = "<=" then vle v t
  else if c = ">" then vgt v t
  else vlt v t

/-- `n in AVAILABLE_FILTERS`. -/
def knownFilter (n : String) : Bool := (lookupFilter n).isSome

/-- Whether the catalogue filter named `n` produces a quarterly series
(rather than `None`) on `df`. -/
def hasSeries (df : DataFrame) (n : String) : Bool :=
  match lookupFilter n with
  | some f => (get_quarterly_data f.calculate df).isSome
  | none => false

/-- Key extraction from an `analyze_company` outcome: the ordered filter
ids of the `filters` and `quarterly_data` mappings of a successful
analysis, `none` for an exception or the error dict. -/
def resultFilterKeys : Except PyErr AnalyzeResult → Option (List String × List String)
  | .ok (AnalyzeResult.result out) =>
      some (out.filters.map Prod.fst, out.quarterly_data.map Prod.fst)
  | _ => none

/-- The income DataFrame `analyze_company` builds from the provider's
income-statement list: truncated to 40 quarters, reversed to oldest-first. -/
def incomeDF (income : List Record) : DataFrame :=
  mkDataFrame ((income.take 40).reverse)

/-- The claim C9 table: four quarters of `grossProfitRatio`
`[0.5, 0.45, 0.55, 0.40]`. -/
def gpTable4 : DataFrame := mkDataFrame
  [ [("grossProfitRatio", Val.rat 0.5)],
    [("grossProfitRatio", Val.rat 0.45)],
    [("grossProfitRatio", Val.rat 0.55)],
    [("grossProfitRatio", Val.rat 0.4)] ]

/-- Two quarters; the second has `grossProfit` present and exactly 0. -/
def sgaZeroDenomTable : DataFrame := mkDataFrame
  [ [("sellingGeneralAndAdministrativeExpenses", Val.rat 1), ("grossProfit", Val.rat 2)],
    [("sellingGeneralAndAdministrativeExpenses", Val.rat 1), ("grossProfit", Val.rat 0)] ]

/-- Two quarters; the second lacks the `grossProfit` field (NaN cell). -/
def sgaMissingDenomTable : DataFrame := mkDataFrame
  [ [("sellingGeneralAndAdministrativeExpenses", Val.rat 1), ("grossProfit", Val.rat 2)],
    [("sellingGeneralAndAdministrativeExpenses", Val.rat 1)] ]

/-- One quarter with no `grossProfit` field anywhere in the table. -/
def sgaNoDenomTable : DataFrame := mkDataFrame
  [ [("sellingGeneralAndAdministrativeExpenses", Val.rat 1)] ]

/-- Two quarters whose `grossProfitRatio` is numeric in the first quarter
and a string in the second, so `calculate` succeeds on quarter 1 and
raises on quarter 2. -/
def strQuarterTable : DataFrame := mkDataFrame
  [ [("grossProfitRatio", Val.rat 0.5), ("calendarYear", Val.str "2020"), ("period", Val.str "Q1")],
    [("grossProfitRatio", Val.str "N/A"), ("calendarYear", Val.str "2020"), ("period", Val.str "Q2")] ]

/-- Two quarters; the second lacks `calendarYear`, so its retrieved label
field is NaN. -/
def labelNanTable : DataFrame := mkDataFrame
  [ [("grossProfitRatio", Val.rat 0.5), ("calendarYear", Val.str "2020"), ("period", Val.str "Q1")],
    [("grossProfitRatio", Val.rat 0.6), ("period", Val.str "Q2")] ]

/-- One quarter with label fields but no `grossProfitRatio` column at all. -/
def noColumnTable : DataFrame := mkDataFrame
  [ [("calendarYear", Val.str "2020"), ("period", Val.str "Q1")] ]

/-- A single-quarter table for the industry-adjusted interest filter:
interest expense 2 over operating income 10. -/
def interestTable : DataFrame := mkDataFrame
  [ [("interestExpense", Val.rat 2), ("operatingIncome", Val.rat 10)] ]

/-- A well-formed company profile record. -/
def profileAcme : Record := [("companyName", Val.str "Acme"), ("sector", Val.str "Tech")]

/-- A filter carrying a threshold together with an unrecognized comparison
operator string. -/
def unrecognizedCmpFilter : FinancialFilter :=
  { grossProfitRatioFilter with comparison := some "≈" }

/-- The `passes` entry of a `get_result` dict: absent without a threshold,
else the `passes_threshold` verdict. -/
theorem mkResult_passes (f : FinancialFilter) (v : Val) :
    (mkResult f v).passes =
      (match f.threshold with
       | some _ => some (passes_threshold f v)
       | none => none) := by
  unfold mkResult
  cases f.threshold <;> cases f.guidelines <;>
    by_cases he : f.classifications.isEmpty <;> simp [he] <;> split <;> simp

/-- The `threshold` display entry of a `get_result` dict. -/
theorem mkResult_threshold (f : FinancialFilter) (v : Val) :
    (mkResult f v).threshold =
      (match f.threshold with
       | some t => some (pyOrText f.threshold_text (synthText f.comparison t))
       | none => none) := by
  unfold mkResult
  cases f.threshold <;> cases f.guidelines <;>
    by_cases he : f.classifications.isEmpty <;> simp [he] <;> split <;> simp

/-- The `classification` entry of a `get_result` dict: present exactly when
the classification list is non-empty. -/
theorem mkResult_classification (f : FinancialFilter) (v : Val) :
    (mkResult f v).classification =
      (if f.classifications.isEmpty then none else some (get_classification f v)) := by
  unfold mkResult
  cases f.threshold <;> cases f.guidelines <;>
    by_cases he : f.classifications.isEmpty <;> simp [he] <;> split <;> simp

/-- `get_result` reduces to `mkResult` once `calculate` succeeds. -/
theorem get_result_ok (f : FinancialFilter) (df : DataFrame) (v : Val)
    (h : f.calculate df = .ok v) : get_result f df = .ok (mkResult f v) := by
  unfold get_result
  rw [h]

/-- The for-loop of `get_classification` returns the description of the
first containing range. -/
theorem get_classification_eq_find (cs : List Classification) (v : Val) :
    get_classification_list cs v =
      (cs.find? (fun c => c.contains v)).map Classification.description := by
  induction cs with
  | nil => rfl
  | cons c rest ih =>
    by_cases h : c.contains v <;> simp [get_classification_list, List.find?_cons, h, ih]

/-- `Classification.contains` holds iff the value is not less than a
present lower bound and not greater than a present upper bound. -/
theorem contains_iff (c : Classification) (v : Val) :
    c.contains v = true ↔
      ((∀ m, c.min_value = some m → vlt v m = false) ∧
       (∀ m, c.max_value = some m → vgt v m = false)) := by
  unfold Classification.contains
  cases hmin : c.min_value with
  | none =>
    cases hmax : c.max_value with
    | none => simp [hmin, hmax]
    | some M => by_cases h2 : vgt v M = true <;> simp [hmin, hmax, h2]
  | some m =>
    cases hmax : c.max_value with
    | none => by_cases h1 : vlt v m = true <;> simp [hmin, hmax, h1]
    | some M =>
      by_cases h1 : vlt v m = true <;> by_cases h2 : vgt v M = true <;>
        simp [hmin, hmax, h1, h2]

/-- If `calculate` raises on any row's single-row sub-table, the series
loop raises. -/
theorem qloop_error_of_mem (calculate : DataFrame → Except PyErr Val)
    (cols : List String) (rows : List (List Val)) (row : List Val) (e : PyErr)
    (hmem : row ∈ rows)
    (herr : calculate { cols := cols, rows := [row] } = .error e) :
    ∃ e2, qloop calculate cols rows = .error e2 := by
  induction rows with
  | nil => cases hmem
  | cons r rest ih =>
    rcases List.mem_cons.mp hmem with h | h
    · subst h
      exact ⟨e, by simp [qloop, herr]⟩
    · cases hc : calculate { cols := cols, rows := [r] } with
      | error e3 => exact ⟨e3, by simp [qloop, hc]⟩
      | ok v =>
        obtain ⟨e2, h2⟩ := ih h
        exact ⟨e2, by simp [qloop, hc, h2]⟩

/-- A successful series loop yields one `(label, value)` pair per row, with
exactly the labels `labelOfRow` assigns. -/
theorem qloop_ok_shape (calculate : DataFrame → Except PyErr Val)
    (cols : List String) (rows : List (List Val)) (ps : List (Option String × Val))
    (h : qloop calculate cols rows = .ok ps) :
    ps.length = rows.length ∧ ps.map Prod.fst = rows.map (labelOfRow cols) := by
  induction rows generalizing ps with
  | nil =>
    simp [qloop] at h
    subst h
    simp
  | cons r rest ih =>
    unfold qloop at h
    cases hc : calculate { cols := cols, rows := [r] } with
    | error e => rw [hc] at h; cases h
    | ok v =>
      rw [hc] at h
      cases hq : qloop calculate cols rest with
      | error e => rw [hq] at h; cases h
      | ok tail =>
        rw [hq] at h
        obtain ⟨h1, h2⟩ := ih tail hq
        cases h
        simp [h1, h2]

/-- Inserting a fresh key appends it. -/
theorem upsert_fresh {α : Type} (d : List (String × α)) (k : String) (v : α)
    (h : d.any (fun kv => kv.1 = k) = false) : upsert d k v = d ++ [(k, v)] := by
  unfold upsert
  rw [h]
  simp

/-- Any successful catalogue lookup returns one of the ten registered
filter objects. -/
theorem lookupFilter_cases (n : String) (f : FinancialFilter)
    (h : lookupFilter n = some f) :
    f = grossProfitRatioFilter ∨ f = sgaRatioFilter ∨ f = rdRatioFilter ∨
    f = depreciationRatioFilter ∨ f = interestRatioFilter ∨ f = netIncomeRatioFilter ∨
    f = revenueTrendFilter ∨ f = operatingMarginFilter ∨ f = sgaConsistencyFilter ∨
    f = industryAdjustedInterestFilter := by
  unfold lookupFilter AVAILABLE_FILTERS at h
  repeat rw [List.lookup] at h
  repeat' split at h
  all_goals cases h
  all_goals simp

/-- When the selected filter's `calculate` succeeds, its dynamically
dispatched `get_result` succeeds. -/
theorem dispatch_ok (n : String) (f : FinancialFilter) (df : DataFrame)
    (hl : lookupFilter n = some f) (hv : ∃ v, f.calculate df = .ok v) :
    ∃ r, dispatch_get_result f df = .ok r := by
  obtain ⟨v, hv⟩ := hv
  rcases lookupFilter_cases n f hl with h|h|h|h|h|h|h|h|h|h <;> subst h
  case inr.inr.inr.inr.inr.inr.inr.inr.inr =>
    rw [show industryAdjustedInterestFilter.calculate = industryInterestCalc from rfl] at hv
    refine ⟨{ value := v,
              description := "Interest to operating income ratio with industry-specific thresholds",
              passes := some (vle v ((industry_thresholds.lookup ("Default")).getD 0)),
              threshold := some ("≤ " ++ fmtPercent0 ((industry_thresholds.lookup ("Default")).getD 0)) }, ?_⟩
    show industryGetResult df = _
    unfold industryGetResult
    rw [hv]
  all_goals exact ⟨_, get_result_ok _ df v hv⟩

/-- The analysis loop succeeds when every selected filter's `calculate`
succeeds, accumulating result keys in request order (unknown ids dropped)
and series keys additionally filtered by series availability. -/
theorem filterLoop_keys (df : DataFrame) (fs : List String)
    (fr : List (String × FilterResult)) (qd : List (String × QSeries))
    (hnd : fs.Nodup)
    (hfr : ∀ n, n ∈ fs → fr.any (fun kv => kv.1 = n) = false)
    (hqd : ∀ n, n ∈ fs → qd.any (fun kv => kv.1 = n) = false)
    (hok : ∀ n f, lookupFilter n = some f → n ∈ fs → ∃ v, f.calculate df = .ok v) :
    ∃ fr2 qd2, filterLoop df fs fr qd = .ok (fr2, qd2) ∧
      fr2.map Prod.fst = fr.map Prod.fst ++ fs.filter knownFilter ∧
      qd2.map Prod.fst = qd.map Prod.fst ++ (fs.filter knownFilter).filter (hasSeries df) := by
  induction fs generalizing fr qd with
  | nil => exact ⟨fr, qd, rfl, by simp, by simp⟩
  | cons n rest ih =>
    have hn : n ∉ rest := (List.nodup_cons.mp hnd).1
    have hrest : rest.Nodup := (List.nodup_cons.mp hnd).2
    cases hlk : lookupFilter n with
    | none =>
      have step : filterLoop df (n :: rest) fr qd = filterLoop df rest fr qd := by
        conv_lhs => rw [filterLoop]
        rw [hlk]
      obtain ⟨fr2, qd2, hloop, h1, h2⟩ := ih fr qd hrest
        (fun m hm => hfr m (List.mem_cons_of_mem n hm))
        (fun m hm => hqd m (List.mem_cons_of_mem n hm))
        (fun m f hf hm => hok m f hf (List.mem_cons_of_mem n hm))
      refine ⟨fr2, qd2, by rw [step]; exact hloop, ?_, ?_⟩
      · rw [h1]
        simp [List.filter_cons, knownFilter, hlk]
      · rw [h2]
        simp [List.filter_cons, knownFilter, hlk]
    | some fobj =>
      have hv := hok n fobj hlk (List.mem_cons_self n rest)
      obtain ⟨r, hr⟩ := dispatch_ok n fobj df hlk hv
      have hfrU : upsert fr n r = fr ++ [(n, r)] :=
        upsert_fresh fr n r (hfr n (List.mem_cons_self n rest))
      have hfresh : ∀ m, m ∈ rest → (fr ++ [(n, r)]).any (fun kv => kv.1 = m) = false := by
        intro m hm
        have h1 := hfr m (List.mem_cons_of_mem n hm)
        have h2 : n ≠ m := fun h => hn (h ▸ hm)
        simp [List.any_append, h1, h2]
      have hknown : knownFilter n = true := by
        simp [knownFilter, hlk]
      cases hq : get_quarterly_data fobj.calculate df with
      | some q =>
        have hqdU : upsert qd n q = qd ++ [(n, q)] :=
          upsert_fresh qd n q (hqd n (List.mem_cons_self n rest))
        have step : filterLoop df (n :: rest) fr qd
            = filterLoop df rest (fr ++ [(n, r)]) (qd ++ [(n, q)]) := by
          conv_lhs => rw [filterLoop]
          simp only [hlk, hr, hq, hfrU, hqdU]
        have hqfresh : ∀ m, m ∈ rest → (qd ++ [(n, q)]).any (fun kv => kv.1 = m) = false := by
          intro m hm
          have h1 := hqd m (List.mem_cons_of_mem n hm)
          have h2 : n ≠ m := fun h => hn (h ▸ hm)
          simp [List.any_append, h1, h2]
        obtain ⟨fr2, qd2, hloop, h1, h2⟩ := ih (fr ++ [(n, r)]) (qd ++ [(n, q)]) hrest hfresh hqfresh
          (fun m f hf hm => hok m f hf (List.mem_cons_of_mem n hm))
        refine ⟨fr2, qd2, by rw [step]; exact hloop, ?_, ?_⟩
        · rw [h1]
          simp [List.filter_cons, hknown]
        · rw [h2]
          have hs : hasSeries df n = true := by
            simp [hasSeries, hlk, hq]
          simp [List.filter_cons, hknown, hs]
      | none =>
        have step : filterLoop df (n :: rest) fr qd
            = filterLoop df rest (fr ++ [(n, r)]) qd := by
          conv_lhs => rw [filterLoop]
          simp only [hlk, hr, hq, hfrU]
        obtain ⟨fr2, qd2, hloop, h1, h2⟩ := ih (fr ++ [(n, r)]) qd hrest hfresh
          (fun m hm => hqd m (List.mem_cons_of_mem n hm))
          (fun m f hf hm => hok m f hf (List.mem_cons_of_mem n hm))
        refine ⟨fr2, qd2, by rw [step]; exact hloop, ?_, ?_⟩
        · rw [h1]
          simp [List.filter_cons, hknown]
        · rw [h2]
          have hs : hasSeries df n = false := by
            simp [hasSeries, hlk, hq]
          simp [List.filter_cons, hknown, hs]

/-- C9: on a 4-quarter table with grossProfitRatio values
[0.5, 0.45, 0.55, 0.40], the gross-profit filter's calculate returns
0.475; evaluate reports passes = True against threshold 0.4 with
comparison >=, and the classification resolves to "Durable competitive
advantage". -/
theorem gross_profit_end_to_end :
    grossProfitCalc gpTable4 = .ok (Val.rat 0.475) ∧
    grossProfitRatioFilter.calculate gpTable4 = .ok (Val.rat 0.475) ∧
    get_result grossProfitRatioFilter gpTable4 = .ok
      { value := Val.rat 0.475
        description := "Indicates pricing power and efficiency"
        passes := some true
        threshold := some "≥ 40%"
        classification := some (some "Durable competitive advantage")
        guidelines := some "Average over the last 10 years to ensure durable competitive advantage." } := by
  refine ⟨?_, ?_, ?_⟩
  · with_unfolding_all decide
  · with_unfolding_all decide
  · with_unfolding_all rfl

/-- C1 counterexample: on a two-quarter table whose second quarter has
grossProfit present and exactly 0 (with SG&A 1), the SG&A ratio filter's
calculate returns +infinity — the zero-denominator quarter does NOT
contribute 0 (which would make the mean 0.25), so calculate does yield an
infinity.  Moreover, on a table where the denominator field is absent from
every quarter, calculate raises KeyError rather than omitting those
quarters. -/
theorem sga_zero_denominator_counterexample :
    sgaCalc sgaZeroDenomTable = .ok Val.inf ∧
    (Except.ok Val.inf : Except PyErr Val) ≠ .ok (Val.rat 0.25) ∧
    sgaCalc sgaNoDenomTable = .error (.keyError ("grossProfit")) := by
  refine ⟨?_, ?_, ?_⟩ <;> with_unfolding_all decide

/-- C1 amended: the division policy the code actually implements.  A
quarter with the denominator present and exactly 0 contributes a signed
infinity (NaN when the numerator is 0), driving the mean to infinity; a
quarter missing the denominator while another quarter supplies it yields
NaN, which the NaN-skipping pandas mean omits; a table in which no quarter
supplies the denominator field makes calculate raise KeyError. -/
theorem sga_division_policy_amended :
    (∀ a : ℚ, vdivE (Val.rat a) (Val.rat 0)
        = .ok (if 0 < a then Val.inf else if a < 0 then Val.ninf else Val.nan)) ∧
    (∀ a : ℚ, vdivE (Val.rat a) Val.nan = .ok Val.nan) ∧
    sgaCalc sgaZeroDenomTable = .ok Val.inf ∧
    sgaCalc sgaMissingDenomTable = .ok (Val.rat 0.5) ∧
    sgaCalc sgaNoDenomTable = .error (.keyError ("grossProfit")) := by
  refine ⟨?_, ?_, ?_, ?_, ?_⟩
  · intro a
    simp [vdivE]
  · intro a
    simp [vdivE]
  · with_unfolding_all decide
  · with_unfolding_all decide
  · with_unfolding_all decide

/-- C2 (code defect): when the record source returns an empty profile dict
and an empty income-statement list — "nothing usable" — analyze_company
raises KeyError("companyName") instead of returning the
"Company ... not found" error dict: get_company_data always returns a
two-key dict, so the `if not company_data` guard can never fire (second
conjunct). -/
theorem analyze_missing_company_raises :
    analyze_company ("ZZZZ-nonexistent") [] [] none
      = .error (.keyError ("companyName")) ∧
    (get_company_data [] []).isEmpty = false := by
  refine ⟨?_, ?_⟩ <;> with_unfolding_all decide

/-- C3 counterexample: on a two-quarter table whose grossProfitRatio is
numeric in quarter 1 and the string "N/A" in quarter 2, per-quarter
calculate succeeds on quarter 1 and raises on quarter 2 — yet
get_quarterly_data returns None: the whole series is aborted, no series
with a single absent point is produced. -/
theorem series_point_failure_counterexample :
    grossProfitCalc { cols := strQuarterTable.cols,
                      rows := [[Val.rat 0.5, Val.str "2020", Val.str "Q1"]] }
      = .ok (Val.rat 0.5) ∧
    grossProfitCalc { cols := strQuarterTable.cols,
                      rows := [[Val.str "N/A", Val.str "2020", Val.str "Q2"]] }
      = .error .typeError ∧
    get_quarterly_data grossProfitCalc strQuarterTable = none := by
  refine ⟨?_, ?_, ?_⟩ <;> with_unfolding_all decide

/-- C3 amended: a calculation failure (raised exception) for any one
quarter makes get_quarterly_data return None for the entire series — the
whole loop runs under one try/except — rather than producing the other
points with a single absent value. -/
theorem series_failure_aborts_whole (calculate : DataFrame → Except PyErr Val)
    (df : DataFrame) (row : List Val) (e : PyErr)
    (hmem : row ∈ df.rows)
    (herr : calculate { cols := df.cols, rows := [row] } = .error e) :
    get_quarterly_data calculate df = none := by
  obtain ⟨e2, h2⟩ := qloop_error_of_mem calculate df.cols df.rows row e hmem herr
  unfold get_quarterly_data
  rw [h2]

/-- C3 witness: instantiating the amended theorem at the concrete
two-quarter table whose second quarter's calculate raises. -/
theorem series_failure_aborts_whole_witness :
    get_quarterly_data grossProfitCalc strQuarterTable = none :=
  series_failure_aborts_whole grossProfitCalc strQuarterTable
    [Val.str "N/A", Val.str "2020", Val.str "Q2"] PyErr.typeError
    (by with_unfolding_all decide) (by with_unfolding_all decide)

/-- C6 counterexample: quarter 2 of this table lacks the calendarYear
field, so by the claim its label should be absent; the code instead
retrieves NaN (truthy in Python) and produces the label "nan-Q2".
Additionally, on a non-empty table with no grossProfitRatio column the
series is None — zero entries for a one-quarter table — refuting the
unconditional length invariant. -/
theorem series_shape_counterexample :
    get_quarterly_data grossProfitCalc labelNanTable
      = some [(some "2020-Q1", Val.rat 0.5), (some "nan-Q2", Val.rat 0.6)] ∧
    (some "nan-Q2" : Option String) ≠ none ∧
    get_quarterly_data grossProfitCalc noColumnTable = none ∧
    noColumnTable.rows.length = 1 := by
  refine ⟨?_, ?_, ?_, ?_⟩ <;> with_unfolding_all decide

/-- C6 amended: whenever get_quarterly_data does produce a series (no
quarter's calculate raised — otherwise the whole series is None), it has
exactly one entry per quarter, and each entry's label is
"{calendarYear}-{period}" when both retrieved label fields are
Python-truthy (NaN is truthy and renders as "nan"), else absent. -/
theorem series_shape_amended (calculate : DataFrame → Except PyErr Val)
    (df : DataFrame) (s : List (Option String × Val))
    (h : get_quarterly_data calculate df = some s) :
    s.length = df.rows.length ∧ s.map Prod.fst = df.rows.map (labelOfRow df.cols) := by
  unfold get_quarterly_data at h
  cases hq : qloop calculate df.cols df.rows with
  | error e => rw [hq] at h; cases h
  | ok ps =>
    rw [hq] at h
    injection h with h
    subst h
    exact qloop_ok_shape calculate df.cols df.rows ps hq

/-- C6 witness: the amended shape theorem instantiated at the concrete
table whose second quarter lacks calendarYear. -/
theorem series_shape_amended_witness :
    ([(some "2020-Q1", Val.rat 0.5), (some "nan-Q2", Val.rat 0.6)] : QSeries).length
        = labelNanTable.rows.length ∧
    ([(some "2020-Q1", Val.rat 0.5), (some "nan-Q2", Val.rat 0.6)] : QSeries).map Prod.fst
        = labelNanTable.rows.map (labelOfRow labelNanTable.cols) :=
  series_shape_amended grossProfitCalc labelNanTable
    [(some "2020-Q1", Val.rat 0.5), (some "nan-Q2", Val.rat 0.6)]
    (by with_unfolding_all decide)

/-- C4: for a filter with a threshold and a comparison in {>=, <=, >, <},
evaluate succeeds on any table where calculate does, its passes entry is
exactly the comparison of the calculated value against the threshold under
that operator, and the threshold display text is the explicit
threshold_text when a non-empty one is provided, else the synthesized
"{comparison} {threshold:.0%}" string. -/
theorem threshold_comparison_correct (f : FinancialFilter) (df : DataFrame)
    (v : Val) (t : ℚ) (c : String)
    (hcalc : f.calculate df = .ok v) (ht : f.threshold = some t)
    (hc : f.comparison = some c)
    (hmem : c = ">=" ∨ c = "<=" ∨ c = ">" ∨ c = "<") :
    get_result f df = .ok (mkResult f v) ∧
    (mkResult f v).passes = some (pyCompare c v t) ∧
    (f.threshold_text = none →
      (mkResult f v).threshold = some (c ++ " " ++ fmtPercent0 t)) ∧
    (∀ s, f.threshold_text = some s → s ≠ "" →
      (mkResult f v).threshold = some s) := by
  have hpass : passes_threshold f v = pyCompare c v t := by
    unfold passes_threshold pyCompare
    rw [ht, hc]
    rcases hmem with h|h|h|h <;> subst h <;> simp
  refine ⟨get_result_ok f df v hcalc, ?_, ?_, ?_⟩
  · rw [mkResult_passes, ht, hpass]
  · intro htt
    rw [mkResult_threshold, ht]
    simp [pyOrText, htt, synthText, hc]
  · intro s hs hne
    rw [mkResult_threshold, ht]
    simp [pyOrText, hs, hne]

/-- C4 witness: the gross-profit filter on the concrete 4-quarter table,
with threshold 0.4, comparison ">=" and explicit display text "≥ 40%". -/
theorem threshold_comparison_correct_witness :
    (mkResult grossProfitRatioFilter (Val.rat 0.475)).passes
      = some (pyCompare (">=") (Val.rat 0.475) 0.4) :=
  (threshold_comparison_correct grossProfitRatioFilter gpTable4 (Val.rat 0.475) 0.4 (">=")
    (by with_unfolding_all decide) (by with_unfolding_all rfl) rfl
    (Or.inl rfl)).2.1

/-- C5: for a filter with a non-empty classification list, evaluate
attaches the description of the first range in list order containing the
calculated value (absent when none does), and containment holds iff the
value is not below a present lower bound and not above a present upper
bound. -/
theorem classification_first_match_correct (f : FinancialFilter) (df : DataFrame)
    (v : Val) (r : FilterResult)
    (hne : f.classifications.isEmpty = false)
    (hcalc : f.calculate df = .ok v)
    (hr : get_result f df = .ok r) :
    r.classification
      = some ((f.classifications.find? (fun c => c.contains v)).map
          Classification.description) ∧
    (∀ c : Classification, c.contains v = true ↔
        ((∀ m, c.min_value = some m → vlt v m = false) ∧
         (∀ m, c.max_value = some m → vgt v m = false))) := by
  have hget := get_result_ok f df v hcalc
  rw [hget] at hr
  injection hr with hr
  subst hr
  refine ⟨?_, fun c => contains_iff c v⟩
  rw [mkResult_classification, hne]
  simp [get_classification, get_classification_eq_find]

/-- C5 witness: the gross-profit filter's result on the 4-quarter table
carries the first matching classification. -/
theorem classification_first_match_correct_witness :
    ({ value := Val.rat 0.475
       description := "Indicates pricing power and efficiency"
       passes := some true
       threshold := some "≥ 40%"
       classification := some (some "Durable competitive advantage")
       guidelines := some "Average over the last 10 years to ensure durable competitive advantage." }
        : FilterResult).classification
      = some ((grossProfitRatioFilter.classifications.find?
          (fun c => c.contains (Val.rat 0.475))).map Classification.description) :=
  (classification_first_match_correct grossProfitRatioFilter gpTable4 (Val.rat 0.475) _
    rfl (by with_unfolding_all decide) (by with_unfolding_all rfl)).1

/-- C10: passes_threshold is fail-open — it returns True whenever the
threshold is absent, the comparison is absent, or the comparison is any
string other than the four recognized operators — and consequently a
successful get_result either omits the passes entry (no threshold) or
reports passes = True. -/
theorem passes_threshold_fail_open (f : FinancialFilter) (v : Val)
    (h : f.threshold = none ∨ f.comparison = none ∨
         ∃ c, f.comparison = some c ∧
           ¬(c = ">=" ∨ c = "<=" ∨ c = ">" ∨ c = "<")) :
    passes_threshold f v = true ∧
    (∀ df r, get_result f df = .ok r → r.passes = none ∨ r.passes = some true) := by
  have hall : ∀ w : Val, passes_threshold f w = true := by
    intro w
    unfold passes_threshold
    rcases h with ht | hc | ⟨c, hc, hops⟩
    · rw [ht]
    · cases h1 : f.threshold <;> rw [hc]
    · cases h1 : f.threshold with
      | none => rfl
      | some t =>
        rw [hc]
        simp only [not_or] at hops
        simp [hops.1, hops.2.1, hops.2.2.1, hops.2.2.2]
  refine ⟨hall v, ?_⟩
  intro df r hr
  unfold get_result at hr
  cases hcal : f.calculate df with
  | error e => rw [hcal] at hr; cases hr
  | ok w =>
    rw [hcal] at hr
    injection hr with hr
    subst hr
    rw [mkResult_passes]
    cases h1 : f.threshold with
    | none => exact Or.inl rfl
    | some t => exact Or.inr (by rw [hall w])

/-- C10 witness: a filter with threshold 0.4 but the unrecognized
comparison "≈" reports True on any value. -/
theorem passes_threshold_fail_open_witness :
    passes_threshold unrecognizedCmpFilter (Val.rat 0.1) = true :=
  (passes_threshold_fail_open unrecognizedCmpFilter (Val.rat 0.1)
    (Or.inr (Or.inr ⟨"≈", rfl, by decide⟩))).1

/-- C8: the industry-adjusted interest filter (catalogue id
"industry_interest") always evaluates against the "Default" entry of its
sector-to-threshold table — 0.20 with a <= comparison and display text
"≤ 20%" — regardless of any threshold, comparison or display text stored
on the base filter object (the sector is never passed in, so no
sector-specific entry is ever used). -/
theorem industry_interest_uses_default (df : DataFrame) (v : Val)
    (t : Option ℚ) (c : Option String) (tt : Option String)
    (h : industryInterestCalc df = .ok v) :
    dispatch_get_result
        { industryAdjustedInterestFilter with
            threshold := t, comparison := c, threshold_text := tt } df
      = .ok { value := v
              description := "Interest to operating income ratio with industry-specific thresholds"
              passes := some (vle v 0.2)
              threshold := some "≤ 20%" } ∧
    industry_thresholds.lookup ("Default") = some 0.2 ∧
    lookupFilter ("industry_interest") = some industryAdjustedInterestFilter := by
  refine ⟨?_, by with_unfolding_all rfl, by with_unfolding_all rfl⟩
  show industryGetResult df = _
  have key : industryGetResult df = .ok
      { value := v
        description := "Interest to operating income ratio with industry-specific thresholds"
        passes := some (vle v ((industry_thresholds.lookup ("Default")).getD 0))
        threshold := some ("≤ " ++ fmtPercent0 ((industry_thresholds.lookup ("Default")).getD 0)) } := by
    unfold industryGetResult
    rw [h]
  have h1 : (industry_thresholds.lookup ("Default")).getD 0 = 0.2 := by
    with_unfolding_all rfl
  have h2 : ("≤ " ++ fmtPercent0 ((industry_thresholds.lookup ("Default")).getD 0)) = "≤ 20%" := by
    with_unfolding_all decide
  rw [key, h2, h1]

/-- C8 witness: on a concrete one-quarter table with interest expense 2
and operating income 10, and arbitrary base threshold data, the result
uses the Default 20% rule. -/
theorem industry_interest_uses_default_witness :
    dispatch_get_result
        { industryAdjustedInterestFilter with
            threshold := some 99, comparison := some ">=", threshold_text := some "≥ 9900%" }
        interestTable
      = .ok { value := Val.rat 0.2
              description := "Interest to operating income ratio with industry-specific thresholds"
              passes := some (vle (Val.rat 0.2) 0.2)
              threshold := some "≤ 20%" } :=
  (industry_interest_uses_default interestTable (Val.rat 0.2)
    (some 99) (some ">=") (some "≥ 9900%") (by with_unfolding_all decide)).1

/-- C7: for a company whose profile resolves and whose data lets every
selected catalogue filter compute (distinct requested ids), the keys of
the result's filters mapping are exactly the requested ids that exist in
the catalogue, in the caller-supplied order; unknown ids are silently
dropped, so a request of only unknown ids yields a result with empty
filters and series mappings rather than an error.  The series mapping
holds, in the same order, exactly those of these ids whose
get_quarterly_data did not return None. -/
theorem analyze_filter_keys_ordered (company : String) (profile : Record)
    (income : List Record) (fs : List String) (cn sec : Val)
    (hcn : profile.lookup ("companyName") = some cn)
    (hsec : profile.lookup ("sector") = some sec)
    (hnd : fs.Nodup)
    (hok : ∀ n f, lookupFilter n = some f → n ∈ fs →
        ∃ v, f.calculate (incomeDF income) = .ok v) :
    resultFilterKeys (analyze_company company profile income (some fs))
      = some (fs.filter knownFilter,
              (fs.filter knownFilter).filter (hasSeries (incomeDF income))) := by
  obtain ⟨fr2, qd2, hloop, h1, h2⟩ :=
    filterLoop_keys (incomeDF income) fs [] [] hnd
      (fun n hn => rfl) (fun n hn => rfl) hok
  have e0 : (get_company_data profile income).isEmpty = false := rfl
  have e1 : dictGet (cdInfo (get_company_data profile income)) ("companyName")
      = .ok cn := by
    show dictGet profile ("companyName") = .ok cn
    unfold dictGet
    rw [hcn]
  have e2 : dictGet (cdInfo (get_company_data profile income)) ("sector")
      = .ok sec := by
    show dictGet profile ("sector") = .ok sec
    unfold dictGet
    rw [hsec]
  have e3 : mkDataFrame (cdStmts (get_company_data profile income)) = incomeDF income := rfl
  have hstep : analyze_company company profile income (some fs)
      = .ok (AnalyzeResult.result
          { company_name := cn, sector := sec, filters := fr2, quarterly_data := qd2 }) := by
    unfold analyze_company
    simp only [e0, Bool.false_eq_true, if_false, Option.getD_some, e1, e2, e3, hloop]
  rw [hstep]
  show some (fr2.map Prod.fst, qd2.map Prod.fst) = _
  rw [h1, h2]
  simp

/-- C7 witness: requesting only the unknown id "not_a_real_filter" for a
company with a well-formed profile yields a successful result whose
filters and series mappings are empty. -/
theorem analyze_filter_keys_ordered_witness :
    resultFilterKeys (analyze_company ("acme") profileAcme [] (some ["not_a_real_filter"]))
      = some ((["not_a_real_filter"].filter knownFilter),
              ((["not_a_real_filter"].filter knownFilter).filter (hasSeries (incomeDF [])))) :=
  analyze_filter_keys_ordered ("acme") profileAcme [] ["not_a_real_filter"]
    (Val.str "Acme") (Val.str "Tech")
    (by with_unfolding_all decide) (by with_unfolding_all decide)
    (by simp)
    (by
      intro n f hlf hmem
      rw [List.mem_singleton] at hmem
      subst hmem
      have h0 : (lookupFilter ("not_a_real_filter")).isNone = true := by
        with_unfolding_all rfl
      rw [hlf] at h0
      simp at h0)
